import Mathlib

/-!
Verification of the TSR Fashion storefront checkout and order-tracking logic.

The definitions below are a shallow embedding of the TypeScript source:
* `src/app/checkout/page.tsx` — cart pricing (`getCartItemFinalPrice`), order
  id generation (`generateOrderId`) and the order-confirmation handler
  (`handleConfirmOrder`, including its construction of the `OrderTracking`
  record and its localStorage persistence);
* `src/app/order-tracking/page.tsx` — `mergeOrders` and `handleLookup`;
* `src/app/api/orders/[orderNumber]/route.ts` — lookup by order number via
  `prisma.order.findUnique` (exact string match on the unique column).

Modelling conventions: JavaScript numbers that only ever hold integer
currency amounts are `Int`; timestamps (`Date.getTime()` milliseconds) are
`Nat`; `Math.random()`-derived draws are passed in explicitly as the sampled
integer; localStorage is threaded as explicit lists in the state; React
`setState` calls become fields of the returned state; `router.push`,
`toast.error` and `toast.success` become fields of the result record.  The
`AUTH_SESSION_KEY` localStorage mirror of the signed-in user is not
modelled: it is a display cache that no proved statement mentions.
-/

namespace TSR

/-! ## Cart data model and pricing (checkout/page.tsx) -/

/-- `discount` field of a cart item / product: `{ amount, percentage }`. -/
structure Discount where
  amount : Int
  percentage : Int
deriving Repr, DecidableEq

/-- A cart line item as used by the checkout page: unit `price`, a
`discount`, and a `quantity`. -/
structure CartItem where
  price : Int
  discount : Discount
  quantity : Nat
deriving Repr, DecidableEq

/-- The redux cart slice state used by checkout: `items` and
`totalQuantities`. -/
structure Cart where
  items : List CartItem
  totalQuantities : Nat
deriving Repr, DecidableEq

/-- JavaScript `Math.round (n / 100)` for an exact rational `n / 100`:
`Math.round x = ⌊x + 1/2⌋` (round half toward positive infinity), so
`Math.round (n / 100) = ⌊(2 n + 100) / 200⌋` with floor division. -/
def jsRoundDiv100 (n : Int) : Int := Int.fdiv (2 * n + 100) 200

/-- `getCartItemFinalPrice` (checkout/page.tsx, lines 119–131):
percentage discount (if `percentage > 0`) is applied with `Math.round`,
else a flat discount (if `amount > 0`) is clamped at zero with `Math.max`,
else the unit price is returned unchanged.  The rounded argument
`price - price * percentage / 100` is the exact rational
`(price * 100 - price * percentage) / 100`. -/
def getCartItemFinalPrice (item : CartItem) : Int :=
  if item.discount.percentage > 0 then
    jsRoundDiv100 (item.price * 100 - item.price * item.discount.percentage)
  else if item.discount.amount > 0 then
    max (item.price - item.discount.amount) 0
  else
    item.price

/-- The `cart.items.reduce` accumulation of `handleConfirmOrder`
(lines 438–440): sum of `getCartItemFinalPrice item * item.quantity`. -/
def cartTotalAmount (items : List CartItem) : Int :=
  items.foldl (fun total item => total + getCartItemFinalPrice item * (item.quantity : Int)) 0

/-- Definition following the spec sentence for `finalUnitPrice` word for
word, to be compared with `getCartItemFinalPrice` from the code: "applies
percentage discount (rounded) if `percentage > 0`, else flat discount
(floored at zero) if `amount > 0`, else unit price unchanged". -/
def specFinalUnitPrice (price percentage amount : Int) : Int :=
  if percentage > 0 then jsRoundDiv100 (price * (100 - percentage))
  else if amount > 0 then max (price - amount) 0
  else price

/-! ## Order data model (lib/data/orders.ts) -/

/-- `OrderTimelineStep`: a delivery milestone.  `date` is an optional
timestamp (epoch milliseconds); `none` renders as "Pending". -/
structure OrderTimelineStep where
  id : String
  title : String
  description : String
  date : Option Nat
  isCompleted : Bool
deriving Repr, DecidableEq

/-- `shippingAddress` of an `OrderTracking` record. -/
structure ShippingAddress where
  name : String
  phone : String
  addressLine1 : String
  addressLine2 : Option String
  city : String
  postalCode : String
deriving Repr, DecidableEq

/-- `OrderTracking`: a stored order.  `id` is the order number;
`placedOn` / `estimatedDelivery` are epoch-millisecond timestamps. -/
structure OrderTracking where
  id : String
  placedOn : Nat
  totalAmount : Int
  itemsCount : Nat
  status : String
  paymentMethod : String
  estimatedDelivery : Option Nat
  notes : String
  shippingAddress : ShippingAddress
  statusHistory : List OrderTimelineStep
deriving Repr, DecidableEq

/-! ## Checkout form values and payment methods (checkout/page.tsx) -/

/-- `CheckoutFormValues`: the address-step form snapshot.  Every field is
registered with default value `""`, so optional fields are plain strings
and JavaScript falsiness (`!value`) is the test `= ""`. -/
structure CheckoutFormValues where
  fullName : String
  email : String
  phone : String
  city : String
  postalCode : String
  addressLine1 : String
  apartment : String
  roadNo : String
  additionalInfo : String
  password : String
  confirmPassword : String
deriving Repr, DecidableEq

/-- One entry of the `paymentMethods` constant. -/
structure PaymentMethod where
  id : String
  title : String
  description : String
deriving Repr, DecidableEq

/-- The `paymentMethods` constant (checkout/page.tsx, lines 83–104). -/
def paymentMethods : List PaymentMethod :=
  [ { id := "cod", title := "Cash on Delivery",
      description := "Pay when your package arrives at your doorstep." },
    { id := "bkash", title := "bKash",
      description := "Secure digital payment through your bKash wallet." },
    { id := "nagad", title := "Nagad",
      description := "Instant payment using your Nagad mobile wallet." },
    { id := "card", title := "Credit / Debit Card",
      description := "Use any Bangladeshi issued Visa, Mastercard or AMEX." } ]

/-- `ORDER_ESTIMATED_DELIVERY_DAYS` (checkout/page.tsx, line 133). -/
def ORDER_ESTIMATED_DELIVERY_DAYS : Nat := 4

/-- `generateOrderId` (checkout/page.tsx, lines 135–136):
`TSR-${Math.floor(100000 + Math.random() * 900000)}`.  The randomness is
passed in as the sampled value `draw = Math.floor(Math.random() * 900000)`,
an arbitrary natural number below `900000`. -/
def generateOrderId (draw : Nat) : String :=
  "TSR-" ++ toString (100000 + draw)

/-- JavaScript `String.prototype.trim`: strip whitespace from both ends. -/
def jsTrim (s : String) : String :=
  String.mk (((s.data.dropWhile (fun c => c.isWhitespace)).reverse.dropWhile
    (fun c => c.isWhitespace)).reverse)

/-- The order record built by `handleConfirmOrder` (checkout/page.tsx,
lines 431–502) from the shipping snapshot, the cart, the selected payment
method id, the current time `now` (epoch ms) and the generated id. -/
def buildOrder (sd : CheckoutFormValues) (cart : Cart) (selectedPayment : String)
    (now : Nat) (orderId : String) : OrderTracking :=
  let addressLine2 :=
    String.intercalate ", "
      (([sd.apartment, sd.roadNo]).filter (fun v => (jsTrim v).length > 0))
  { id := orderId
    placedOn := now
    totalAmount := cartTotalAmount cart.items
    itemsCount := cart.totalQuantities
    status := "processing"
    paymentMethod :=
      ((paymentMethods.find? (fun m => m.id = selectedPayment)).map
        (fun m => m.title)).getD "Cash on Delivery"
    estimatedDelivery := some (now + ORDER_ESTIMATED_DELIVERY_DAYS * 24 * 60 * 60 * 1000)
    notes := sd.additionalInfo
    shippingAddress :=
      { name := sd.fullName
        phone := sd.phone
        addressLine1 := sd.addressLine1
        addressLine2 := if addressLine2.length > 0 then some addressLine2 else none
        city := sd.city
        postalCode := sd.postalCode }
    statusHistory :=
      [ { id := "placed", title := "Order Placed",
          description := "We have received your order details.",
          date := some now, isCompleted := true },
        { id := "processing", title := "Processing",
          description := "We\u0027re preparing your items for dispatch.",
          date := some now, isCompleted := true },
        { id := "shipped", title := "Shipped",
          description := "Your package will be handed over to the courier soon.",
          date := none, isCompleted := false },
        { id := "out-for-delivery", title := "Out for Delivery",
          description := "The courier will contact you before arriving.",
          date := none, isCompleted := false },
        { id := "delivered", title := "Delivered",
          description := "Enjoy your new styles from TSR Fashion!",
          date := none, isCompleted := false } ] }

/-! ## Checkout page state and the order-confirmation handler -/

/-- The two-step checkout controller state (`CheckoutStep`). -/
inductive CheckoutStep where
  | address
  | payment
deriving Repr, DecidableEq

/-- `AuthStatus` of the checkout page. -/
inductive AuthStatus where
  | loading
  | guest
  | authenticated
deriving Repr, DecidableEq

/-- `CurrentUser` as returned by the auth endpoints. -/
structure CurrentUser where
  id : String
  email : String
  fullName : String
  phone : Option String
deriving Repr, DecidableEq

/-- The profile `data` payload stored by `setStoredProfile`. -/
structure ProfileData where
  fullName : String
  email : String
  phone : String
  city : String
  postalCode : String
  addressLine1 : String
  apartment : String
  roadNo : String
  additionalInfo : String
deriving Repr, DecidableEq

/-- `StoredProfile`: profile data plus an `updatedAt` timestamp. -/
structure StoredProfile where
  data : ProfileData
  updatedAt : Nat
deriving Repr, DecidableEq

/-- `setStoredProfile userId profile`: the per-user keyed localStorage
profile cache, modelled as an association list keyed by user id. -/
def setStoredProfile (profiles : List (String × StoredProfile)) (userId : String)
    (profile : StoredProfile) : List (String × StoredProfile) :=
  (userId, profile) :: profiles.filter (fun kv => kv.1 ≠ userId)

/-- The `StoredProfile` that `handleConfirmOrder` and `onSubmit` build from
a shipping snapshot. -/
def profileFromShipping (sd : CheckoutFormValues) (timestamp : Nat) : StoredProfile :=
  { data :=
      { fullName := sd.fullName, email := sd.email, phone := sd.phone
        city := sd.city, postalCode := sd.postalCode
        addressLine1 := sd.addressLine1, apartment := sd.apartment
        roadNo := sd.roadNo, additionalInfo := sd.additionalInfo }
    updatedAt := timestamp }

/-- The checkout page state relevant to `handleConfirmOrder`: the React
state hooks plus the localStorage order list and profile cache. -/
structure CheckoutState where
  step : CheckoutStep
  shippingDetails : Option CheckoutFormValues
  selectedPayment : String
  authStatus : AuthStatus
  currentUser : Option CurrentUser
  cart : Option Cart
  storedOrders : List OrderTracking
  profiles : List (String × StoredProfile)
deriving Repr, DecidableEq

/-- Outcome of the `/api/auth/signup` call made for guest actors:
`success user` is an ok response carrying `{ user }`; `successNoUser` is an
ok response whose body lacks `user`; `failure msg` is a non-ok response
with optional `message`; `thrown` is a network/parse exception. -/
inductive SignupOutcome where
  | success (user : CurrentUser)
  | successNoUser
  | failure (message : Option String)
  | thrown
deriving Repr, DecidableEq

/-- The external world of one `handleConfirmOrder` run: the signup call
outcome, whether the localStorage order write throws, `Date.now()`, and the
sampled `Math.floor(Math.random() * 900000)` draw. -/
structure ConfirmEnv where
  signup : SignupOutcome
  persistFails : Bool
  now : Nat
  randomDraw : Nat
deriving Repr, DecidableEq

/-- Result of one `handleConfirmOrder` run: the new page state
(`state.cart` is left as-is; clearing the redux cart is recorded in
`cartCleared`), the order record built on the success path (if any),
the surfaced toasts and the `router.push` target. -/
structure ConfirmResult where
  state : CheckoutState
  createdOrder : Option OrderTracking
  cartCleared : Bool
  errorMsg : Option String
  successMsg : Option String
  redirect : Option String
deriving Repr, DecidableEq

/-- Shared tail of `handleConfirmOrder` (checkout/page.tsx, lines 431–521):
build the order, best-effort append it to the localStorage order list (a
throwing write is only logged), clear the cart, reset the payment
selection, toast success and redirect to tracking. -/
def finalizeOrder (st : CheckoutState) (env : ConfirmEnv)
    (sd : CheckoutFormValues) (cart : Cart) : ConfirmResult :=
  let orderId := generateOrderId env.randomDraw
  let order := buildOrder sd cart st.selectedPayment env.now orderId
  let storedOrders :=
    if env.persistFails then st.storedOrders else st.storedOrders ++ [order]
  { state := { st with storedOrders := storedOrders, selectedPayment := "" }
    createdOrder := some order
    cartCleared := true
    errorMsg := none
    successMsg := some ("Order confirmed! Tracking ID: " ++ orderId)
    redirect := some ("/order-tracking?orderId=" ++ orderId) }

/-- The result of a guard failure or signup failure: no order, no cart
clearing, an error toast, possibly a step change or redirect. -/
def abortResult (st : CheckoutState) (step : CheckoutStep) (msg : String)
    (redirect : Option String) : ConfirmResult :=
  { state := { st with step := step }
    createdOrder := none
    cartCleared := false
    errorMsg := some msg
    successMsg := none
    redirect := redirect }

/-- `handleConfirmOrder` (checkout/page.tsx, lines 310–521). -/
def handleConfirmOrder (st : CheckoutState) (env : ConfirmEnv) : ConfirmResult :=
  match st.shippingDetails with
  | none =>
      abortResult st .address "Please provide delivery details before confirming." none
  | some sd =>
    if st.selectedPayment = "" then
      abortResult st st.step "Select a payment method to continue." none
    else
      match st.cart with
      | none => abortResult st st.step "Your cart is empty." (some "/cart")
      | some cart =>
        if cart.items.isEmpty then
          abortResult st st.step "Your cart is empty." (some "/cart")
        else if st.authStatus = .guest then
          if sd.password = "" ∨ sd.confirmPassword = "" then
            abortResult st .address "Create a password to continue." none
          else
            match env.signup with
            | .failure msg =>
                abortResult st .address
                  (msg.getD "We couldn\u0027t create your account. Please try again.") none
            | .thrown =>
                abortResult st .address
                  "We couldn\u0027t create your account. Please try again." none
            | .successNoUser =>
                let sd2 := { sd with password := "", confirmPassword := "" }
                finalizeOrder { st with shippingDetails := some sd2 } env sd cart
            | .success user =>
                let sd2 := { sd with password := "", confirmPassword := "" }
                let profiles2 := setStoredProfile st.profiles user.id
                  (profileFromShipping sd env.now)
                finalizeOrder
                  { st with
                      authStatus := .authenticated
                      currentUser := some user
                      profiles := profiles2
                      shippingDetails := some sd2 }
                  env sd cart
        else if st.authStatus = .authenticated then
          match st.currentUser with
          | some user =>
              let profiles2 := setStoredProfile st.profiles user.id
                (profileFromShipping sd env.now)
              finalizeOrder { st with profiles := profiles2 } env sd cart
          | none => finalizeOrder st env sd cart
        else
          finalizeOrder st env sd cart

/-! ## Actor resolution (checkout/page.tsx, `fetchCurrentUser`, lines 201–281) -/

/-- Outcome of the `/api/auth/me` request: `ok user` is a 2xx response
whose body parses to `{ user }`; `httpError` is a non-ok response;
`thrown errorName` is an exception from `fetch` or body parsing, carrying
the JavaScript `Error.name` (an aborted request throws `"AbortError"`). -/
inductive FetchUserOutcome where
  | ok (user : CurrentUser)
  | httpError
  | thrown (errorName : String)
deriving Repr, DecidableEq

/-- The `(authStatus, currentUser)` pair after `fetchCurrentUser` handles
one outcome, given the pair beforehand (`loading` on first entry): an ok
response authenticates; a non-ok response or a non-abort exception
classifies as guest; an `AbortError` returns early, leaving the previous
pair untouched. -/
def resolveActor (prev : AuthStatus × Option CurrentUser)
    (outcome : FetchUserOutcome) : AuthStatus × Option CurrentUser :=
  match outcome with
  | .ok user => (.authenticated, some user)
  | .httpError => (.guest, none)
  | .thrown errorName =>
      if errorName = "AbortError" then prev else (.guest, none)

/-! ## Order tracking: merge and lookup (order-tracking/page.tsx) -/

/-- One `map.set(order.id, order)` step of `mergeOrders` on a JavaScript
`Map`, modelled as an association list in insertion order: an existing key
keeps its position and gets the new value; a new key is appended. -/
def jsMapSet (m : List (String × OrderTracking)) (k : String)
    (v : OrderTracking) : List (String × OrderTracking) :=
  if m.any (fun kv => kv.1 = k) then
    m.map (fun kv => if kv.1 = k then (k, v) else kv)
  else
    m ++ [(k, v)]

/-- `mergeOrders` (order-tracking/page.tsx, lines 41–53): insert
`baseOrders ++ storedOrders` into a `Map` keyed by order id (later entries
overwrite earlier ones), then sort the values by `placedOn` descending.
`Array.prototype.sort` is stable, as is `List.insertionSort`. -/
def mergeOrders (baseOrders storedOrders : List OrderTracking) : List OrderTracking :=
  let m := (baseOrders ++ storedOrders).foldl (fun m o => jsMapSet m o.id o) []
  List.insertionSort (fun a b => b.placedOn ≤ a.placedOn) (m.map (fun kv => kv.2))

/-- `GET /api/orders/[orderNumber]` (route.ts, lines 6–22):
`prisma.order.findUnique({ where: { orderNumber } })` — an exact match on
the unique `orderNumber` column — returning the order or a 404. -/
def apiGetOrderByNumber (db : List OrderTracking) (orderNumber : String) :
    Option OrderTracking :=
  db.find? (fun o => o.id = orderNumber)

/-- ASCII `String.prototype.toLowerCase`. -/
def jsToLower (s : String) : String := String.mk (s.data.map Char.toLower)

/-- Result of `handleLookup`: the `(selectedOrder, error)` pair it leaves
behind. -/
inductive LookupResult where
  | found (order : OrderTracking)
  | notFound (message : String)
  | emptyInput (message : String)
deriving Repr, DecidableEq

/-- `handleLookup` (order-tracking/page.tsx, lines 126–183) on the
successful-network path: trim the input; reject empty input; find a
case-insensitive match in the in-memory `orders` list; otherwise fetch
`/api/orders/[trimmed]`, whose match against the database `db` is exact. -/
def handleLookup (orders db : List OrderTracking) (input : String) : LookupResult :=
  let trimmed := jsTrim input
  if trimmed.length = 0 then
    .emptyInput "Enter a valid order ID to view its status."
  else
    match orders.find? (fun o => jsToLower o.id = jsToLower trimmed) with
    | some o => .found o
    | none =>
        match apiGetOrderByNumber db trimmed with
        | some o => .found o
        | none =>
            .notFound ("We could not find any order with the ID \"" ++ trimmed ++ "\".")

/-! ## Concrete fixtures for witnesses and counterexamples -/

/-- The spec example item: `{price: 100, discount: {percentage: 20, amount: 0}, quantity: 2}`. -/
def itemExample : CartItem :=
  { price := 100, discount := { amount := 0, percentage := 20 }, quantity := 2 }

/-- An item whose discount percentage exceeds 100. -/
def itemOverdiscounted : CartItem :=
  { price := 100, discount := { amount := 0, percentage := 200 }, quantity := 1 }

/-- A filled-in shipping form snapshot. -/
def sdFixture : CheckoutFormValues :=
  { fullName := "Rahim Uddin", email := "rahim@example.com", phone := "01712345678"
    city := "Dhaka", postalCode := "1207", addressLine1 := "House 12, Road 7"
    apartment := "", roadNo := "", additionalInfo := ""
    password := "secret1", confirmPassword := "secret1" }

/-- A one-item cart holding the spec example item. -/
def cartFixture : Cart := { items := [itemExample], totalQuantities := 2 }

/-- An authenticated user. -/
def userFixture : CurrentUser :=
  { id := "u1", email := "rahim@example.com", fullName := "Rahim Uddin"
    phone := some "01712345678" }

/-- A checkout state ready to confirm as an authenticated user. -/
def stateAuth : CheckoutState :=
  { step := .payment, shippingDetails := some sdFixture, selectedPayment := "cod"
    authStatus := .authenticated, currentUser := some userFixture
    cart := some cartFixture, storedOrders := [], profiles := [] }

/-- A checkout state ready to confirm as a guest. -/
def stateGuest : CheckoutState :=
  { stateAuth with authStatus := .guest, currentUser := none }

/-- An environment where every call succeeds. -/
def envOk : ConfirmEnv :=
  { signup := .success userFixture, persistFails := false, now := 1000, randomDraw := 0 }

/-- An order as stored remotely (in the database only). -/
def orderRemote : OrderTracking :=
  { id := "TSR-105284", placedOn := 500, totalAmount := 420, itemsCount := 3
    status := "shipped", paymentMethod := "Cash on Delivery"
    estimatedDelivery := some 900, notes := ""
    shippingAddress :=
      { name := "Nadia Rahman", phone := "+8801712345678"
        addressLine1 := "House 12, Road 7", addressLine2 := some "Dhanmondi"
        city := "Dhaka", postalCode := "1205" }
    statusHistory := [] }

/-! ## Helper lemmas -/

theorem specFinalUnitPrice_eq_code (i : CartItem) :
    specFinalUnitPrice i.price i.discount.percentage i.discount.amount =
      getCartItemFinalPrice i := by
  unfold specFinalUnitPrice getCartItemFinalPrice
  split_ifs with h1 h2
  · congr 1
    ring
  · rfl
  · rfl

theorem foldl_add_eq_sum (f : CartItem → Int) (l : List CartItem) (a : Int) :
    l.foldl (fun t i => t + f i) a = a + (l.map f).sum := by
  induction l generalizing a with
  | nil => simp
  | cons x xs ih => simp [List.foldl_cons, ih, add_assoc]

theorem cartTotalAmount_eq_sum (items : List CartItem) :
    cartTotalAmount items =
      (items.map (fun i => getCartItemFinalPrice i * (i.quantity : Int))).sum := by
  unfold cartTotalAmount
  rw [foldl_add_eq_sum]
  simp

/-! ## Claim theorems -/

/-- C1: for every cart (and shipping snapshot, payment selection, time and
order id), the `totalAmount` of the built order is the sum over cart items of
`finalUnitPrice(item) × quantity`, where `finalUnitPrice` is the
spec-worded function (percentage discount rounded when `percentage > 0`,
taking precedence; else flat discount clamped at zero when `amount > 0`;
else the unit price); and on the spec example item
`{price: 100, discount: {percentage: 20, amount: 0}, quantity: 2}` the
final unit price is `80` and the order total is `160`. -/
theorem order_totalAmount_matches_spec :
    (∀ (sd : CheckoutFormValues) (cart : Cart) (sp : String) (now : Nat) (oid : String),
        (buildOrder sd cart sp now oid).totalAmount =
          (cart.items.map (fun i =>
            specFinalUnitPrice i.price i.discount.percentage i.discount.amount *
              (i.quantity : Int))).sum)
      ∧ getCartItemFinalPrice itemExample = 80
      ∧ (buildOrder sdFixture cartFixture "cod" 1000 "TSR-100000").totalAmount = 160 := by
  refine ⟨fun sd cart sp now oid => ?_, by decide, by decide⟩
  show cartTotalAmount cart.items = _
  rw [cartTotalAmount_eq_sum]
  exact congrArg List.sum
    (List.map_congr_left fun i _ => by rw [specFinalUnitPrice_eq_code])

/-- C10: for every cart item with nonnegative price and discount
percentage between 0 and 100 inclusive, `getCartItemFinalPrice` is
nonnegative (the clamp at zero applies only on the flat-discount branch);
and for the concrete item with `percentage = 200 > 100` the final unit
price, and hence the order `totalAmount`, is negative. -/
theorem finalPrice_nonneg_and_overdiscount_negative :
    (∀ item : CartItem, 0 ≤ item.price → 0 ≤ item.discount.percentage →
        item.discount.percentage ≤ 100 → 0 ≤ getCartItemFinalPrice item)
      ∧ itemOverdiscounted.discount.percentage > 100
      ∧ getCartItemFinalPrice itemOverdiscounted < 0
      ∧ (buildOrder sdFixture { items := [itemOverdiscounted], totalQuantities := 1 }
          "cod" 1000 "TSR-100000").totalAmount < 0 := by
  refine ⟨fun item hp h0 h100 => ?_, by decide, by decide, by decide⟩
  unfold getCartItemFinalPrice
  split_ifs with hpct hamt
  · unfold jsRoundDiv100
    apply Int.fdiv_nonneg
    · have hfac : 0 ≤ item.price * (100 - item.discount.percentage) :=
        mul_nonneg hp (by linarith)
      nlinarith
    · norm_num
  · exact le_max_right _ _
  · exact hp

/-- Witness for C10: the nonnegativity statement applied to the concrete
in-range item `itemExample`. -/
theorem finalPrice_nonneg_witness :
    0 ≤ itemExample.price ∧ 0 ≤ itemExample.discount.percentage
      ∧ itemExample.discount.percentage ≤ 100
      ∧ 0 ≤ getCartItemFinalPrice itemExample :=
  ⟨by decide, by decide, by decide,
    finalPrice_nonneg_and_overdiscount_negative.1 itemExample
      (by decide) (by decide) (by decide)⟩

/-- The empty-cart guard condition of `handleConfirmOrder`:
`!cart || cart.items.length === 0`. -/
def cartGuardEmpty (c : Option Cart) : Bool :=
  match c with
  | none => true
  | some cart => cart.items.isEmpty

/-- C3: confirming requires a shipping snapshot, a payment selection and a
non-empty cart; when any guard fails no order is created, the cart is not
cleared and the stored orders are untouched, a recoverable error toast is
surfaced, a missing shipping snapshot forces the step back to `address`,
and an empty cart (with the other two guards satisfied) redirects to the
cart view. -/
theorem confirm_guard_failure (st : CheckoutState) (env : ConfirmEnv)
    (h : st.shippingDetails = none ∨ st.selectedPayment = ""
      ∨ cartGuardEmpty st.cart = true) :
    ((handleConfirmOrder st env).createdOrder = none
        ∧ (handleConfirmOrder st env).cartCleared = false
        ∧ (handleConfirmOrder st env).state.storedOrders = st.storedOrders
        ∧ ((handleConfirmOrder st env).errorMsg).isSome = true)
      ∧ (st.shippingDetails = none → (handleConfirmOrder st env).state.step = .address)
      ∧ (st.shippingDetails ≠ none → st.selectedPayment ≠ "" →
          (handleConfirmOrder st env).redirect = some "/cart") := by
  rcases hsd : st.shippingDetails with _ | sd
  · simp [handleConfirmOrder, hsd, abortResult]
  · by_cases hp : st.selectedPayment = ""
    · simp [handleConfirmOrder, hsd, hp, abortResult]
    · have hc : cartGuardEmpty st.cart = true := by
        rcases h with h | h | h
        · rw [hsd] at h; cases h
        · exact absurd h hp
        · exact h
      rcases hcart : st.cart with _ | cart
      · simp [handleConfirmOrder, hsd, hp, hcart, abortResult]
      · have hne : cart.items.isEmpty = true := by
          rw [hcart] at hc
          exact hc
        simp [handleConfirmOrder, hsd, hp, hcart, hne, abortResult]

/-- A state whose shipping snapshot is missing. -/
def stateNoShipping : CheckoutState := { stateAuth with shippingDetails := none }

/-- Witness for C3: with no shipping snapshot, confirmation creates no
order, keeps the cart, and returns to the address step. -/
theorem confirm_guard_failure_witness :
    (handleConfirmOrder stateNoShipping envOk).createdOrder = none
      ∧ (handleConfirmOrder stateNoShipping envOk).cartCleared = false
      ∧ (handleConfirmOrder stateNoShipping envOk).state.step = .address :=
  ⟨(confirm_guard_failure stateNoShipping envOk (Or.inl rfl)).1.1,
   (confirm_guard_failure stateNoShipping envOk (Or.inl rfl)).1.2.1,
   (confirm_guard_failure stateNoShipping envOk (Or.inl rfl)).2.1 rfl⟩

/-- Whether the signup call outcome is a failure (non-ok response or a
thrown request). -/
def signupFailed (o : SignupOutcome) : Bool :=
  match o with
  | .failure _ => true
  | .thrown => true
  | _ => false

/-- C5: when a guest confirms and the account-creation call fails, no
order is created, the cart is not cleared, the stored orders are
untouched, the shipping snapshot and payment selection are preserved
unchanged, the flow returns to the address step, and an error is
surfaced. -/
theorem guest_signup_failure_preserves_state (st : CheckoutState) (env : ConfirmEnv)
    (sd : CheckoutFormValues) (cart : Cart)
    (hsd : st.shippingDetails = some sd) (hp : st.selectedPayment ≠ "")
    (hc : st.cart = some cart) (hne : cart.items.isEmpty = false)
    (hg : st.authStatus = .guest)
    (hpw : sd.password ≠ "") (hcpw : sd.confirmPassword ≠ "")
    (hfail : signupFailed env.signup = true) :
    (handleConfirmOrder st env).createdOrder = none
      ∧ (handleConfirmOrder st env).cartCleared = false
      ∧ (handleConfirmOrder st env).state.storedOrders = st.storedOrders
      ∧ (handleConfirmOrder st env).state.shippingDetails = st.shippingDetails
      ∧ (handleConfirmOrder st env).state.selectedPayment = st.selectedPayment
      ∧ (handleConfirmOrder st env).state.step = .address
      ∧ ((handleConfirmOrder st env).errorMsg).isSome = true := by
  rcases hsig : env.signup with user | _ | msg | _
  · rw [hsig] at hfail
    simp [signupFailed] at hfail
  · rw [hsig] at hfail
    simp [signupFailed] at hfail
  · simp [handleConfirmOrder, hsd, hp, hc, hne, hg, hpw, hcpw, hsig, abortResult]
  · simp [handleConfirmOrder, hsd, hp, hc, hne, hg, hpw, hcpw, hsig, abortResult]

/-- An environment whose signup call fails with a duplicate-email
message. -/
def envSignupDup : ConfirmEnv :=
  { envOk with signup := .failure (some "An account with this email already exists.") }

/-- Witness for C5: a concrete guest confirmation with a failing signup
call keeps the snapshot and the payment selection and goes back to the
address step. -/
theorem guest_signup_failure_witness :
    (handleConfirmOrder stateGuest envSignupDup).createdOrder = none
      ∧ (handleConfirmOrder stateGuest envSignupDup).state.shippingDetails =
          stateGuest.shippingDetails
      ∧ (handleConfirmOrder stateGuest envSignupDup).state.selectedPayment =
          stateGuest.selectedPayment
      ∧ (handleConfirmOrder stateGuest envSignupDup).state.step = .address := by
  have h := guest_signup_failure_preserves_state stateGuest envSignupDup sdFixture
    cartFixture rfl (by decide) rfl (by decide) rfl (by decide) (by decide) (by decide)
  exact ⟨h.1, h.2.2.2.1, h.2.2.2.2.1, h.2.2.2.2.2.1⟩

/-- An environment where the localStorage order write throws. -/
def envPersistFail : ConfirmEnv := { envOk with persistFails := true }

/-- Counterexample to C4 as stated: with a failing order persist, the
confirmation flow does not abort — the cart is still cleared, no error is
surfaced (a success toast and the tracking redirect happen), and the
stored order list stays empty. -/
theorem persist_failure_counterexample :
    (handleConfirmOrder stateAuth envPersistFail).cartCleared = true
      ∧ (handleConfirmOrder stateAuth envPersistFail).errorMsg = none
      ∧ ((handleConfirmOrder stateAuth envPersistFail).successMsg).isSome = true
      ∧ (handleConfirmOrder stateAuth envPersistFail).state.storedOrders = [] := by
  decide

/-- C4 as amended: when persisting the order fails during an authenticated
confirmation, the failure is only logged — no order record is stored, but
the flow continues: the cart is cleared, no error is surfaced, a success
message is shown and the user is redirected to tracking. -/
theorem persist_failure_continues (st : CheckoutState) (env : ConfirmEnv)
    (sd : CheckoutFormValues) (cart : Cart) (user : CurrentUser)
    (hsd : st.shippingDetails = some sd) (hp : st.selectedPayment ≠ "")
    (hc : st.cart = some cart) (hne : cart.items.isEmpty = false)
    (ha : st.authStatus = .authenticated) (hu : st.currentUser = some user)
    (hf : env.persistFails = true) :
    (handleConfirmOrder st env).state.storedOrders = st.storedOrders
      ∧ (handleConfirmOrder st env).cartCleared = true
      ∧ (handleConfirmOrder st env).errorMsg = none
      ∧ ((handleConfirmOrder st env).successMsg).isSome = true
      ∧ (handleConfirmOrder st env).redirect =
          some ("/order-tracking?orderId=" ++ generateOrderId env.randomDraw) := by
  simp [handleConfirmOrder, hsd, hp, hc, hne, ha, hu, finalizeOrder, hf, abortResult]

/-- Witness for the amended C4 at the concrete fixture state. -/
theorem persist_failure_continues_witness :
    (handleConfirmOrder stateAuth envPersistFail).state.storedOrders =
        stateAuth.storedOrders
      ∧ (handleConfirmOrder stateAuth envPersistFail).cartCleared = true := by
  have h := persist_failure_continues stateAuth envPersistFail sdFixture cartFixture
    userFixture rfl (by decide) rfl (by decide) rfl rfl rfl
  exact ⟨h.1, h.2.1⟩

/-- Shape of every successful `handleConfirmOrder` run: either no order is
created, or the created order is `buildOrder` of some snapshot and cart at
the payment selection of the state and the time and random draw of the environment,
appended to the stored list exactly when the persist write does not
throw. -/
theorem confirm_success_shape (st : CheckoutState) (env : ConfirmEnv) :
    (handleConfirmOrder st env).createdOrder = none
      ∨ ∃ sd cart,
          (handleConfirmOrder st env).createdOrder =
              some (buildOrder sd cart st.selectedPayment env.now
                (generateOrderId env.randomDraw))
            ∧ (handleConfirmOrder st env).state.storedOrders =
                (if env.persistFails then st.storedOrders
                 else st.storedOrders ++
                   [buildOrder sd cart st.selectedPayment env.now
                     (generateOrderId env.randomDraw)]) := by
  rcases hsd : st.shippingDetails with _ | sd
  · left
    simp [handleConfirmOrder, hsd, abortResult]
  · by_cases hp : st.selectedPayment = ""
    · left
      simp [handleConfirmOrder, hsd, hp, abortResult]
    · rcases hc : st.cart with _ | cart
      · left
        simp [handleConfirmOrder, hsd, hp, hc, abortResult]
      · by_cases hne : cart.items.isEmpty
        · left
          simp [handleConfirmOrder, hsd, hp, hc, hne, abortResult]
        · by_cases hg : st.authStatus = .guest
          · by_cases hpw : sd.password = "" ∨ sd.confirmPassword = ""
            · left
              simp [handleConfirmOrder, hsd, hp, hc, hne, hg, hpw, abortResult]
            · rcases hsig : env.signup with user | _ | msg | _
              · right
                exact ⟨sd, cart,
                  by simp [handleConfirmOrder, hsd, hp, hc, hne, hg, hpw, hsig, finalizeOrder],
                  by simp [handleConfirmOrder, hsd, hp, hc, hne, hg, hpw, hsig, finalizeOrder]⟩
              · right
                exact ⟨sd, cart,
                  by simp [handleConfirmOrder, hsd, hp, hc, hne, hg, hpw, hsig, finalizeOrder],
                  by simp [handleConfirmOrder, hsd, hp, hc, hne, hg, hpw, hsig, finalizeOrder]⟩
              · left
                simp [handleConfirmOrder, hsd, hp, hc, hne, hg, hpw, hsig, abortResult]
              · left
                simp [handleConfirmOrder, hsd, hp, hc, hne, hg, hpw, hsig, abortResult]
          · by_cases ha : st.authStatus = .authenticated
            · rcases hu : st.currentUser with _ | user
              · right
                exact ⟨sd, cart,
                  by simp [handleConfirmOrder, hsd, hp, hc, hne, hg, ha, hu, finalizeOrder],
                  by simp [handleConfirmOrder, hsd, hp, hc, hne, hg, ha, hu, finalizeOrder]⟩
              · right
                exact ⟨sd, cart,
                  by simp [handleConfirmOrder, hsd, hp, hc, hne, hg, ha, hu, finalizeOrder],
                  by simp [handleConfirmOrder, hsd, hp, hc, hne, hg, ha, hu, finalizeOrder]⟩
            · right
              exact ⟨sd, cart,
                by simp [handleConfirmOrder, hsd, hp, hc, hne, hg, ha, finalizeOrder],
                by simp [handleConfirmOrder, hsd, hp, hc, hne, hg, ha, finalizeOrder]⟩

/-- C8: every order created by the confirmation flow has current status
`"processing"` and a status history of exactly the five fixed steps, in
order, with the first two complete and the last three not complete. -/
theorem created_order_initial_status (st : CheckoutState) (env : ConfirmEnv)
    (o : OrderTracking)
    (h : (handleConfirmOrder st env).createdOrder = some o) :
    o.status = "processing"
      ∧ o.statusHistory.map (fun s => (s.id, s.isCompleted)) =
          [("placed", true), ("processing", true), ("shipped", false),
           ("out-for-delivery", false), ("delivered", false)]
      ∧ o.statusHistory.map (fun s => s.title) =
          ["Order Placed", "Processing", "Shipped", "Out for Delivery", "Delivered"] := by
  rcases confirm_success_shape st env with hnone | ⟨sd, cart, hco, _⟩
  · rw [hnone] at h
    cases h
  · rw [hco] at h
    injection h with h
    subst h
    exact ⟨rfl, rfl, rfl⟩

/-- Witness for C8: the order created at the concrete fixture state has
status `"processing"` and the fixed five-step history flags. -/
theorem created_order_initial_status_witness :
    (handleConfirmOrder stateAuth envOk).createdOrder =
        some (buildOrder sdFixture cartFixture "cod" 1000 (generateOrderId 0))
      ∧ (buildOrder sdFixture cartFixture "cod" 1000 (generateOrderId 0)).status =
          "processing" :=
  ⟨rfl,
    (created_order_initial_status stateAuth envOk
      (buildOrder sdFixture cartFixture "cod" 1000 (generateOrderId 0)) rfl).1⟩

/-- Counterexample to C2 as stated: two confirmations in one session whose
`Math.random` draws coincide store two orders with the same order number —
nothing regenerates the number on conflict with the already-stored
order. -/
theorem duplicate_order_numbers_counterexample :
    ((handleConfirmOrder
        { (handleConfirmOrder stateAuth envOk).state with selectedPayment := "cod" }
        envOk).state.storedOrders.map (fun o => o.id))
      = ["TSR-100000", "TSR-100000"] := by
  decide

/-- C2 as amended: the order number of every created order is
`generateOrderId` of the random draw of the environment alone — order creation
never consults the already-stored orders and never regenerates — and when
the persist write succeeds the order is appended unconditionally, so draws
that coincide yield duplicate stored numbers. -/
theorem order_number_never_regenerated (st : CheckoutState) (env : ConfirmEnv)
    (o : OrderTracking)
    (h : (handleConfirmOrder st env).createdOrder = some o) :
    o.id = generateOrderId env.randomDraw
      ∧ (env.persistFails = false →
          (handleConfirmOrder st env).state.storedOrders = st.storedOrders ++ [o]) := by
  rcases confirm_success_shape st env with hnone | ⟨sd, cart, hco, hst⟩
  · rw [hnone] at h
    cases h
  · rw [hco] at h
    injection h with h
    subst h
    refine ⟨rfl, fun hpf => ?_⟩
    rw [hst, hpf]
    simp

/-- Witness for the amended C2 at the concrete fixture state. -/
theorem order_number_never_regenerated_witness :
    ((handleConfirmOrder stateAuth envOk).createdOrder.map (fun o => o.id)) =
        some (generateOrderId 0) := by
  have h := order_number_never_regenerated stateAuth envOk
    (buildOrder sdFixture cartFixture "cod" 1000 (generateOrderId 0)) rfl
  rw [show (handleConfirmOrder stateAuth envOk).createdOrder =
      some (buildOrder sdFixture cartFixture "cod" 1000 (generateOrderId 0)) from rfl]
  simp only [Option.map]
  rw [h.1]
  rfl

/-- Counterexample to C9 as stated: an aborted request (`AbortError`,
thrown when the effect is cleaned up) is an unsuccessful outcome of the
actor-resolution call, yet the handler returns early and the status stays
`loading` instead of becoming `guest`. -/
theorem abort_outcome_stays_loading :
    resolveActor (.loading, none) (.thrown "AbortError") = (.loading, none)
      ∧ (resolveActor (.loading, none) (.thrown "AbortError")).1 ≠ AuthStatus.guest := by
  decide

/-- C9 as amended: every outcome of the actor-resolution call other than a
successful authenticated response or an aborted request classifies the
actor as guest (a non-ok response and any thrown error other than
`AbortError`); an `AbortError` — thrown only when the page unmounts and
cancels the request — leaves the previous state untouched; a successful
response authenticates. -/
theorem actor_resolution_defaults_to_guest (prev : AuthStatus × Option CurrentUser)
    (name : String) (h : name ≠ "AbortError") :
    (resolveActor prev .httpError).1 = .guest
      ∧ (resolveActor prev (.thrown name)).1 = .guest
      ∧ resolveActor prev (.thrown "AbortError") = prev
      ∧ ∀ u, (resolveActor prev (.ok u)).1 = .authenticated := by
  refine ⟨rfl, ?_, by simp [resolveActor], fun u => rfl⟩
  simp [resolveActor, h]

/-- Witness for the amended C9: a concrete thrown `TypeError` classifies
the actor as guest. -/
theorem actor_resolution_defaults_to_guest_witness :
    (resolveActor (.loading, none) (.thrown "TypeError")).1 = AuthStatus.guest :=
  (actor_resolution_defaults_to_guest (.loading, none) "TypeError" (by decide)).2.1

/-- Counterexample to C6 as stated: the order stored only in the database
matches the queried number case-insensitively, yet the lookup reports
not-found, because the server fallback matches the order number
exactly. -/
theorem lookup_case_insensitive_counterexample :
    jsToLower orderRemote.id = jsToLower (jsTrim "tsr-105284")
      ∧ handleLookup [] [orderRemote] "tsr-105284"
          = .notFound "We could not find any order with the ID \"tsr-105284\"." := by
  decide

/-- C6 as amended: the lookup trims the input and matches the in-memory
order list case-insensitively; only when that misses does it query the
server, which matches the stored order number exactly (case-sensitively);
it returns the full record on a match and a not-found signal otherwise. -/
theorem lookup_local_insensitive_remote_exact (orders db : List OrderTracking)
    (q : String) (o : OrderTracking) (h0 : (jsTrim q).length ≠ 0) :
    (orders.find? (fun x => jsToLower x.id = jsToLower (jsTrim q)) = some o →
        handleLookup orders db q = .found o)
      ∧ (orders.find? (fun x => jsToLower x.id = jsToLower (jsTrim q)) = none →
          apiGetOrderByNumber db (jsTrim q) = some o →
          handleLookup orders db q = .found o)
      ∧ (orders.find? (fun x => jsToLower x.id = jsToLower (jsTrim q)) = none →
          apiGetOrderByNumber db (jsTrim q) = none →
          handleLookup orders db q =
            .notFound ("We could not find any order with the ID \"" ++ jsTrim q ++ "\".")) := by
  refine ⟨fun hl => ?_, fun hl hr => ?_, fun hl hr => ?_⟩
  · simp [handleLookup, h0, hl]
  · simp [handleLookup, h0, hl, hr]
  · simp [handleLookup, h0, hl, hr]

/-- Witness for the amended C6: a lowercase query finds the order held in
the in-memory list. -/
theorem lookup_local_insensitive_witness :
    handleLookup [orderRemote] [] "tsr-105284" = .found orderRemote :=
  (lookup_local_insensitive_remote_exact [orderRemote] [] "tsr-105284" orderRemote
    (by decide)).1 (by decide)

/-! ## Lemmas about the `mergeOrders` map -/

/-- Value of a `mergeOrders`-map key: the first (and, under `GoodAssoc`,
only) entry with that key. -/
def lookupAssoc (m : List (String × OrderTracking)) (k : String) : Option OrderTracking :=
  (m.find? (fun kv => kv.1 = k)).map (fun kv => kv.2)

/-- Invariant of the `mergeOrders` map: the value of each entry carries the
key of that entry as its order id, and keys are unique. -/
def GoodAssoc (m : List (String × OrderTracking)) : Prop :=
  (∀ kv ∈ m, kv.2.id = kv.1) ∧ (m.map Prod.fst).Nodup

theorem goodAssoc_nil : GoodAssoc [] := by
  constructor
  · intro kv hkv
    cases hkv
  · simp

theorem jsMapSet_good {m : List (String × OrderTracking)} (hm : GoodAssoc m)
    (o : OrderTracking) : GoodAssoc (jsMapSet m o.id o) := by
  unfold jsMapSet
  by_cases h : m.any (fun kv => kv.1 = o.id) = true
  · rw [if_pos h]
    constructor
    · intro kv hkv
      rcases List.mem_map.mp hkv with ⟨kv', hkv', heq⟩
      subst heq
      by_cases hk : kv'.1 = o.id
      · simp [hk]
      · simp only [if_neg hk]
        exact hm.1 kv' hkv'
    · have hkeys : (m.map (fun kv => if kv.1 = o.id then (o.id, o) else kv)).map Prod.fst
          = m.map Prod.fst := by
        rw [List.map_map]
        apply List.map_congr_left
        intro kv _
        by_cases hk : kv.1 = o.id
        · simp [hk]
        · simp [hk]
      rw [hkeys]
      exact hm.2
  · rw [if_neg h]
    constructor
    · intro kv hkv
      rcases List.mem_append.mp hkv with hkv | hkv
      · exact hm.1 kv hkv
      · rw [List.mem_singleton.mp hkv]
    · rw [List.map_append]
      refine List.Nodup.append hm.2 (by simp) ?_
      intro a ha1 ha2
      rcases List.mem_map.mp ha1 with ⟨kv, hkv, hfst⟩
      rw [List.map_singleton, List.mem_singleton] at ha2
      exact h (List.any_eq_true.mpr ⟨kv, hkv, by simp [hfst, ha2]⟩)

theorem lookupAssoc_jsMapSet (m : List (String × OrderTracking)) (o : OrderTracking)
    (k : String) :
    lookupAssoc (jsMapSet m o.id o) k = if k = o.id then some o else lookupAssoc m k := by
  unfold jsMapSet lookupAssoc
  by_cases h : m.any (fun kv => kv.1 = o.id) = true
  · rw [if_pos h]
    by_cases hk : k = o.id
    · rw [if_pos hk, List.find?_map]
      have hpred : ((fun kv : String × OrderTracking => decide (kv.1 = k)) ∘
          (fun kv => if kv.1 = o.id then (o.id, o) else kv)) =
          fun kv : String × OrderTracking => decide (kv.1 = o.id) := by
        funext kv
        by_cases h2 : kv.1 = o.id
        · simp [h2, hk]
        · simp [h2, hk]
      rw [hpred]
      have hiss : (m.find? (fun kv : String × OrderTracking =>
          decide (kv.1 = o.id))).isSome := by
        rw [List.find?_isSome]
        rcases List.any_eq_true.mp h with ⟨kv, hkv, hp⟩
        exact ⟨kv, hkv, hp⟩
      rcases Option.isSome_iff_exists.mp hiss with ⟨kv0, hkv0⟩
      have hkey : kv0.1 = o.id := by
        have hp := List.find?_some hkv0
        simpa using hp
      rw [hkv0]
      simp [hkey]
    · rw [if_neg hk, List.find?_map]
      have hpred : ((fun kv : String × OrderTracking => decide (kv.1 = k)) ∘
          (fun kv => if kv.1 = o.id then (o.id, o) else kv)) =
          fun kv : String × OrderTracking => decide (kv.1 = k) := by
        funext kv
        by_cases h2 : kv.1 = o.id
        · simp [h2, fun hc : o.id = k => hk hc.symm]
        · simp [h2]
      rw [hpred]
      cases hf : m.find? (fun kv : String × OrderTracking => decide (kv.1 = k)) with
      | none => simp
      | some kv0 =>
          have hkey : kv0.1 = k := by
            have hp := List.find?_some hf
            simpa using hp
          have hne : ¬ kv0.1 = o.id := by
            rw [hkey]
            exact fun hc => hk hc
          simp [hne]
  · rw [if_neg h, List.find?_append]
    by_cases hk : k = o.id
    · have hnone : m.find? (fun kv : String × OrderTracking => decide (kv.1 = k)) = none := by
        rw [List.find?_eq_none]
        intro kv hkv
        simp only [decide_eq_true_eq]
        intro hc
        exact h (List.any_eq_true.mpr ⟨kv, hkv, by simp [hc, hk]⟩)
      rw [if_pos hk, hnone]
      simp [List.find?, hk]
    · have hsing : ([(o.id, o)].find? (fun kv : String × OrderTracking =>
          decide (kv.1 = k))) = none := by
        simp only [List.find?]
        have hne : ¬ o.id = k := fun hc => hk hc.symm
        simp [hne]
      cases hf : m.find? (fun kv : String × OrderTracking => decide (kv.1 = k)) with
      | none => simp [hf, hsing, if_neg hk]
      | some kv0 => simp [hf, if_neg hk]

theorem fold_good (l : List OrderTracking) (m : List (String × OrderTracking))
    (hm : GoodAssoc m) : GoodAssoc (l.foldl (fun m o => jsMapSet m o.id o) m) := by
  induction l generalizing m with
  | nil => exact hm
  | cons o l ih => exact ih _ (jsMapSet_good hm o)

theorem fold_lookup (l : List OrderTracking) (m : List (String × OrderTracking))
    (k : String) :
    lookupAssoc (l.foldl (fun m o => jsMapSet m o.id o) m) k
      = match l.reverse.find? (fun o => o.id = k) with
        | some o => some o
        | none => lookupAssoc m k := by
  induction l generalizing m with
  | nil => simp
  | cons o l ih =>
      rw [List.foldl_cons, ih, List.reverse_cons, List.find?_append]
      cases hl : l.reverse.find? (fun x => decide (x.id = k)) with
      | some o' => simp [hl]
      | none =>
          simp only [hl]
          rw [lookupAssoc_jsMapSet]
          by_cases hk : o.id = k
          · rw [if_pos hk.symm]
            have hfo : [o].find? (fun x : OrderTracking => decide (x.id = k)) = some o := by
              simp [List.find?, hk]
            simp [hfo]
          · have hk2 : ¬ k = o.id := fun hc => hk hc.symm
            rw [if_neg hk2]
            have hfo : [o].find? (fun x : OrderTracking => decide (x.id = k)) = none := by
              simp [List.find?, hk]
            simp [hfo]

theorem fold_lookup_nil (l : List OrderTracking) (k : String) :
    lookupAssoc (l.foldl (fun m o => jsMapSet m o.id o) []) k
      = l.reverse.find? (fun o => o.id = k) := by
  rw [fold_lookup]
  cases h : l.reverse.find? (fun o => o.id = k) <;> simp [lookupAssoc]

theorem goodAssoc_filter (m : List (String × OrderTracking)) (hm : GoodAssoc m)
    (k : String) :
    (m.map (fun kv => kv.2)).filter (fun o => o.id = k)
      = match lookupAssoc m k with
        | some o => [o]
        | none => [] := by
  induction m with
  | nil => simp [lookupAssoc]
  | cons a m ih =>
      have hm' : GoodAssoc m := by
        constructor
        · intro kv hkv
          exact hm.1 kv (List.mem_cons_of_mem a hkv)
        · exact (List.nodup_cons.mp hm.2).2
      have ha : a.2.id = a.1 := hm.1 a (List.mem_cons_self a m)
      by_cases hk : a.1 = k
      · have hnotin : a.1 ∉ m.map Prod.fst := (List.nodup_cons.mp hm.2).1
        have hnone : lookupAssoc m k = none := by
          have hfn : m.find? (fun kv : String × OrderTracking => decide (kv.1 = k)) = none := by
            rw [List.find?_eq_none]
            intro kv hkv
            simp only [decide_eq_true_eq]
            intro hc
            exact hnotin (by
              rw [hk, ← hc]
              exact List.mem_map_of_mem Prod.fst hkv)
          unfold lookupAssoc
          rw [hfn]
          rfl
        have htail : (m.map (fun kv => kv.2)).filter (fun o => o.id = k) = [] := by
          rw [ih hm', hnone]
        have hfind : lookupAssoc (a :: m) k = some a.2 := by
          unfold lookupAssoc
          rw [List.find?_cons_of_pos]
          · rfl
          · simp [hk]
        rw [hfind, List.map_cons, List.filter_cons_of_pos]
        · rw [htail]
        · simp [ha, hk]
      · have hfind : lookupAssoc (a :: m) k = lookupAssoc m k := by
          unfold lookupAssoc
          rw [List.find?_cons_of_neg]
          simp [hk]
        rw [hfind, List.map_cons, List.filter_cons_of_neg]
        · exact ih hm'
        · simp [ha, hk]

/-- C7: merging locally stored orders into the base orders deduplicates by
order number with the most recently seen record winning (for every order
number, the merged list retains exactly the last occurrence in
`baseOrders ++ storedOrders`, or nothing), and the merged result is sorted
by placement time in descending order. -/
theorem mergeOrders_dedup_lastSeen_sorted (baseOrders storedOrders : List OrderTracking) :
    List.Sorted (fun a b => b.placedOn ≤ a.placedOn) (mergeOrders baseOrders storedOrders)
      ∧ ∀ k, (mergeOrders baseOrders storedOrders).filter (fun o => o.id = k)
          = match (baseOrders ++ storedOrders).reverse.find? (fun o => o.id = k) with
            | some o => [o]
            | none => [] := by
  constructor
  · haveI : IsTotal OrderTracking (fun a b => b.placedOn ≤ a.placedOn) :=
      ⟨fun a b => le_total b.placedOn a.placedOn⟩
    haveI : IsTrans OrderTracking (fun a b => b.placedOn ≤ a.placedOn) :=
      ⟨fun a b c hab hbc => le_trans hbc hab⟩
    exact List.sorted_insertionSort _ _
  · intro k
    have hgood : GoodAssoc ((baseOrders ++ storedOrders).foldl
        (fun m o => jsMapSet m o.id o) []) := fold_good _ _ goodAssoc_nil
    have hperm : (mergeOrders baseOrders storedOrders).Perm
        (((baseOrders ++ storedOrders).foldl (fun m o => jsMapSet m o.id o) []).map
          (fun kv => kv.2)) := List.perm_insertionSort _ _
    have hfil := hperm.filter (fun o => decide (o.id = k))
    rw [goodAssoc_filter _ hgood k, fold_lookup_nil] at hfil
    cases hf : (baseOrders ++ storedOrders).reverse.find? (fun o => o.id = k) with
    | none =>
        rw [hf] at hfil
        exact hfil.eq_nil
    | some o =>
        rw [hf] at hfil
        exact List.perm_singleton.mp hfil

end TSR
